import Mathlib

/-!
Verification development for the filesystem materialization layer of the
conda package manager (module `conda/gateways/disk/create.py`).

The module is embedded shallowly: the filesystem is an explicit association
list from path names to nodes, every Python function that mutates the
filesystem becomes a Lean function threading that state, and a raised
exception becomes an `Except.error` carrying both the error value and the
filesystem state at the moment the exception left the function (so that
partial mutation before an error is observable).

Path names are treated as atoms; symbolic-link resolution follows the
stored target string, with fuel bounding chains (a cycle behaves like the
OS error that `os.path.exists` turns into `False`).
-/

set_option maxHeartbeats 1000000

/-- Modelled from the spec: the `LinkType` closed variant (section 3) with
members `hardlink`, `softlink`, `copy`, `directory` (its defining module
`conda/models/enums.py` is outside the sources).  The extra constructor
`other` stands for any value outside those four members that a caller could
pass to `create_link`, which the dispatch handles with its final `else`
branch. -/
inductive LinkType
  | hardlink
  | softlink
  | copy
  | directory
  | other
deriving DecidableEq, Repr

/-- A filesystem node: a regular file with content and copyable metadata
(timestamps and permission bits collapsed into one `meta` number), a
directory, or a symbolic link storing its target string. -/
inductive FsNode
  | file (content : String) (meta : Nat)
  | dir
  | symlink (target : String)
deriving DecidableEq, Repr

/-- The filesystem: an association list from path names to nodes.  The first
entry with a given name is the visible one. -/
abbrev Fs := List (String × FsNode)

/-- Python `str.startswith`, expressed on the character lists of the two
strings. -/
def strStartsWith (s pre : String) : Bool :=
  pre.data.isPrefixOf s.data

/-- Lexical lookup of a path, the analogue of inspecting the directory entry
itself (what `os.path.islink` and link-creation syscalls see). -/
def lookupFs (fs : Fs) (p : String) : Option FsNode :=
  (fs.find? (fun e => e.1 == p)).map (fun e => e.2)

/-- Resolve a path through symbolic links, with fuel.  Exhausted fuel models
the ELOOP failure that `os.stat` raises on a symlink cycle. -/
def resolveNode (fs : Fs) : Nat → String → Option FsNode
  | 0, _ => none
  | fuel + 1, p =>
    match lookupFs fs p with
    | some (FsNode.symlink t) => resolveNode fs fuel t
    | r => r

/-- Python `os.path.exists`: follows symbolic links, so a dangling symlink
yields `false`.  Fuel `fs.length + 1` suffices for any acyclic chain. -/
def path_exists (fs : Fs) (p : String) : Bool :=
  (resolveNode fs (fs.length + 1) p).isSome

/-- Python `os.path.islink`: true exactly when the directory entry itself is
a symbolic link. -/
def islink (fs : Fs) (p : String) : Bool :=
  match lookupFs fs p with
  | some (FsNode.symlink _) => true
  | _ => false

/-- Python `os.readlink`, defaulting to the empty string off a symlink (the
source only calls it under an `islink` guard). -/
def readlink (fs : Fs) (p : String) : String :=
  match lookupFs fs p with
  | some (FsNode.symlink t) => t
  | _ => ""

/-- Python `os.path.isdir`: follows symbolic links. -/
def isdir (fs : Fs) (p : String) : Bool :=
  match resolveNode fs (fs.length + 1) p with
  | some FsNode.dir => true
  | _ => false

/-- Modelled from the spec: the external recursive-delete capability
`rm_rf` from `conda/gateways/disk/delete.py` (outside the sources), which
the spec describes as recursively deleting the destination and tolerating
absence.  With atomic path names this removes every entry carrying the
name. -/
def rm_rf (fs : Fs) (p : String) : Fs :=
  fs.filter (fun e => !(e.1 == p))

/-- Source `mkdir_p`: `makedirs`, returning the path on success, swallowing
`EEXIST` only when the path is (or resolves to) a directory, re-raising
otherwise. -/
def mkdir_p (fs : Fs) (p : String) : Except Unit Fs :=
  match lookupFs fs p with
  | none => Except.ok ((p, FsNode.dir) :: fs)
  | some _ => if isdir fs p then Except.ok fs else Except.error ()

/-- Error values observable from the embedded functions: `ClobberError`,
the generic `CondaError` raised for an unexpected link type, `CondaOSError`
(both exception classes live in `conda/exceptions.py`, outside the sources;
they are modelled as carriers of exactly what the call sites here put in
them), and a plain operating-system error such as `FileExistsError`. -/
inductive CondaErr
  | clobberError (dst src : String) (link_type : LinkType)
  | condaError (link_type : LinkType)
  | condaOSError (msg : String)
  | osError
deriving DecidableEq, Repr

/-- Ambient process facts threaded through the functions: whether the code
runs on Windows (`on_win`), whether the win32 `CreateSymbolicLink` API was
resolved at import time, and whether a hard-link attempt fails for
environmental reasons (cross-volume linking, permissions) even though the
involved paths are well-formed. -/
structure SysEnv where
  on_win : Bool
  win_symlink_ok : Bool
  link_fails : Bool
deriving DecidableEq, Repr

/-- Python `os.link`: fails on environmental failure, when the source does
not resolve to a regular file, or when the destination entry already exists
(`FileExistsError`); otherwise the destination shares the source file's
content and metadata. -/
def os_link (env : SysEnv) (fs : Fs) (src dst : String) : Except Unit Fs :=
  if env.link_fails then Except.error ()
  else
    match resolveNode fs (fs.length + 1) src with
    | some (FsNode.file c m) =>
      if (lookupFs fs dst).isSome then Except.error ()
      else Except.ok ((dst, FsNode.file c m) :: fs)
    | _ => Except.error ()

/-- Python `os.symlink`: stores the target string without validating it;
fails only when the destination entry already exists. -/
def os_symlink (fs : Fs) (target dst : String) : Except Unit Fs :=
  if (lookupFs fs dst).isSome then Except.error ()
  else Except.ok ((dst, FsNode.symlink target) :: fs)

/-- Source `win_hard_link`: the `CreateHardLinkW` wrapper, raising
`CondaOSError` when the API reports failure.  The failure conditions mirror
`os_link`. -/
def win_hard_link (env : SysEnv) (fs : Fs) (src dst : String) :
    Except (CondaErr × Fs) Fs :=
  if env.link_fails then Except.error (CondaErr.condaOSError "win32 hard link failed", fs)
  else
    match resolveNode fs (fs.length + 1) src with
    | some (FsNode.file c m) =>
      if (lookupFs fs dst).isSome then
        Except.error (CondaErr.condaOSError "win32 hard link failed", fs)
      else Except.ok ((dst, FsNode.file c m) :: fs)
    | _ => Except.error (CondaErr.condaOSError "win32 hard link failed", fs)

/-- Source `win_soft_link`: the `CreateSymbolicLinkW` wrapper, raising
`CondaOSError` when the API is unavailable or reports failure. -/
def win_soft_link (env : SysEnv) (fs : Fs) (src dst : String) :
    Except (CondaErr × Fs) Fs :=
  if !env.win_symlink_ok then
    Except.error (CondaErr.condaOSError "win32 soft link not supported", fs)
  else if (lookupFs fs dst).isSome then
    Except.error (CondaErr.condaOSError "win32 soft link failed", fs)
  else Except.ok ((dst, FsNode.symlink src) :: fs)

/-- Where a write through `open(p, "w")` lands: follow symlinks (a dangling
chain ends at the name the final link stores, which the write then creates);
writing onto a directory fails. -/
def openWriteTarget (fs : Fs) : Nat → String → Option String
  | 0, _ => none
  | fuel + 1, p =>
    match lookupFs fs p with
    | some (FsNode.symlink t) => openWriteTarget fs fuel t
    | some FsNode.dir => none
    | _ => some p

/-- Replace the node at an existing entry, or create the entry. -/
def setEntry (fs : Fs) (p : String) (n : FsNode) : Fs :=
  if (lookupFs fs p).isSome then
    fs.map (fun e => if e.1 == p then (p, n) else e)
  else (p, n) :: fs

/-- Python `shutil.copy2`: a full content-and-metadata copy.  The source
must resolve to a regular file; the destination is written through
`openWriteTarget`. -/
def copy2 (fs : Fs) (src dst : String) : Except Unit Fs :=
  match resolveNode fs (fs.length + 1) src with
  | some (FsNode.file c m) =>
    match openWriteTarget fs (fs.length + 1) dst with
    | some p => Except.ok (setEntry fs p (FsNode.file c m))
    | none => Except.error ()
  | _ => Except.error ()

/-- The content a reader of path `p` observes (following symlinks). -/
def readContent (fs : Fs) (p : String) : Option String :=
  match resolveNode fs (fs.length + 1) p with
  | some (FsNode.file c _) => some c
  | _ => none

/-- The message `create_hard_link_or_copy` raises for a symlink source
(after the `dals` dedent of the source's template). -/
def cannot_hard_link_message (src dst : String) : String :=
  "Cannot hard link a soft link\n  source: " ++ src ++ "\n  destination: " ++ dst ++ "\n"

/-- Source `create_hard_link_or_copy`: refuse a symlink source outright;
otherwise attempt the platform hard link and fall back to `copy2` when the
attempt raises an I/O error (`CondaOSError` from the win32 wrapper derives
from `OSError`, so it is caught too). -/
def create_hard_link_or_copy (env : SysEnv) (fs : Fs) (src dst : String) :
    Except (CondaErr × Fs) Fs :=
  if islink fs src then
    Except.error (CondaErr.condaOSError (cannot_hard_link_message src dst), fs)
  else
    match (if env.on_win then win_hard_link env fs src dst
           else
             match os_link env fs src dst with
             | Except.ok fs2 => Except.ok fs2
             | Except.error _ => Except.error (CondaErr.osError, fs)) with
    | Except.ok fs2 => Except.ok fs2
    | Except.error _ =>
      match copy2 fs src dst with
      | Except.ok fs2 => Except.ok fs2
      | Except.error _ => Except.error (CondaErr.osError, fs)

/-- The clobber-protection block of `create_link`: if the destination
exists (by the symlink-following `exists` check), delete it when `force` is
set, otherwise raise `ClobberError(dst, src, link_type)`. -/
def clobber_check (fs : Fs) (src dst : String) (link_type : LinkType) (force : Bool) :
    Except (CondaErr × Fs) Fs :=
  if path_exists fs dst then
    if force then Except.ok (rm_rf fs dst)
    else Except.error (CondaErr.clobberError dst src link_type, fs)
  else Except.ok fs

/-- The `if link_type == ... elif ... else raise CondaError` chain of
`create_link`, after the clobber check has produced `fs1`.  The copy branch
recreates a relative symlink source as a symlink, otherwise calls `copy2`.
An uncaught OS-level failure propagates with the state the function held. -/
def link_dispatch (env : SysEnv) (fs1 : Fs) (src dst : String) (link_type : LinkType) :
    Except (CondaErr × Fs) Fs :=
  match link_type with
  | LinkType.hardlink =>
    if env.on_win then win_hard_link env fs1 src dst
    else
      match os_link env fs1 src dst with
      | Except.ok fs2 => Except.ok fs2
      | Except.error _ => Except.error (CondaErr.osError, fs1)
  | LinkType.softlink =>
    if env.on_win then win_soft_link env fs1 src dst
    else
      match os_symlink fs1 src dst with
      | Except.ok fs2 => Except.ok fs2
      | Except.error _ => Except.error (CondaErr.osError, fs1)
  | LinkType.copy =>
    if !env.on_win && islink fs1 src && !(strStartsWith (readlink fs1 src) "/") then
      match os_symlink fs1 (readlink fs1 src) dst with
      | Except.ok fs2 => Except.ok fs2
      | Except.error _ => Except.error (CondaErr.osError, fs1)
    else
      match copy2 fs1 src dst with
      | Except.ok fs2 => Except.ok fs2
      | Except.error _ => Except.error (CondaErr.osError, fs1)
  | lt2 => Except.error (CondaErr.condaError lt2, fs1)

/-- Source `create_link`: the directory case is `mkdir_p` with no clobber
check; every other case runs the clobber check and then dispatches on the
link type. -/
def create_link (env : SysEnv) (fs : Fs) (src dst : String) (link_type : LinkType)
    (force : Bool) : Except (CondaErr × Fs) Fs :=
  if link_type = LinkType.directory then
    match mkdir_p fs dst with
    | Except.ok fs1 => Except.ok fs1
    | Except.error _ => Except.error (CondaErr.osError, fs)
  else
    match clobber_check fs src dst link_type force with
    | Except.error e => Except.error e
    | Except.ok fs1 => link_dispatch env fs1 src dst link_type

/-- The kind a member of the extracted tree has on disk, as the `os.walk`
classification sees it: a regular file, a directory, or a symbolic link
together with whether `os.path.isdir` (which follows the link) is true of
it. -/
inductive TarKind
  | regular
  | directory
  | symlinkTo (targetIsDir : Bool)
deriving DecidableEq, Repr

/-- One entry of the extracted tree: its path relative to the destination
directory and the ownership `tarfile` gave it on disk. -/
structure TarEntry where
  path : String
  kind : TarKind
  owner : Nat
  group : Nat
deriving DecidableEq, Repr

/-- The post-extraction ownership pass of `extract_tarball`: `os.walk` over
the destination puts every non-directory entry (regular files, and symbolic
links whose target is not a directory) into its `files` lists and the loop
applies `os.lchown(p, 0, 0)` to each; directories and symlinks that
`os.path.isdir` classifies as directories are never passed to `lchown`. -/
def walk_files_lchown_root (entries : List TarEntry) : List TarEntry :=
  entries.map (fun e =>
    match e.kind with
    | TarKind.directory => e
    | TarKind.symlinkTo true => e
    | _ => { e with owner := 0, group := 0 })

/-- Ownership `tarfile.extractall` leaves when the process is not
superuser: it cannot restore the archive's recorded owners, so every entry
belongs to the extracting process. -/
def chown_all (uid gid : Nat) (entries : List TarEntry) : List TarEntry :=
  entries.map (fun e => { e with owner := uid, group := gid })

/-- Failures of `extract_tarball`: the `assert not exists(...)` precondition
violation, or `tarfile.open` failing on a missing or unreadable archive. -/
inductive ExtractErr
  | assertionError (destination_directory : String)
  | openError
deriving DecidableEq, Repr

/-- Source `extract_tarball`: default the destination to the archive path
with its final 8 characters stripped (`tarball_full_path[:-8]`), assert the
destination does not exist before opening the archive, extract, and then
rewrite ownership to root — but only when `sys.platform.startswith('linux')`
and `os.getuid() == 0`.  The archive argument is `none` when `tarfile.open`
would fail; the result pairs the destination path with the extracted
entries. -/
def extract_tarball (fs : Fs) (platform : String) (uid gid : Nat)
    (tarball_full_path : String) (destination_directory : Option String)
    (archive : Option (List TarEntry)) : Except ExtractErr (String × List TarEntry) :=
  let dest := destination_directory.getD (tarball_full_path.dropRight 8)
  if path_exists fs dest then Except.error (ExtractErr.assertionError dest)
  else
    match archive with
    | none => Except.error ExtractErr.openError
    | some entries =>
      let extracted := if uid == 0 then entries else chown_all uid gid entries
      if strStartsWith platform "linux" && uid == 0 then
        Except.ok (dest, walk_files_lchown_root extracted)
      else Except.ok (dest, extracted)

/-- What the fixed registry path (`PRIVATE_ENVS`, a constant from
`conda/base/constants.py` outside the sources) holds on disk: a regular
file whose text parses as a JSON object of string-to-string entries, a
regular file whose text is not valid JSON, or a directory (not a regular
file). -/
inductive RegFile
  | jsonFile (m : List (String × String))
  | invalidFile
  | directory
deriving DecidableEq, Repr

/-- The state of the `join(root_prefix, "conda-meta")` path that
`create_private_envs_meta` ensures exists. -/
inductive MetaPathState
  | absent
  | isDir
  | isFile
deriving DecidableEq, Repr

/-- The filesystem state the registry operations touch: the registry file
and the conda-meta directory. -/
structure RegState where
  privateEnvs : Option RegFile
  condaMeta : MetaPathState
deriving DecidableEq, Repr

/-- Source `get_json_content`: a missing path or one that is not a regular
file (`isfile` is false) yields an empty mapping, and so does a regular
file whose text raises `json.decoder.JSONDecodeError`; only a valid JSON
object is returned as parsed. -/
def get_json_content (f : Option RegFile) : List (String × String) :=
  match f with
  | some (RegFile.jsonFile m) => m
  | some RegFile.invalidFile => []
  | some RegFile.directory => []
  | none => []

/-- Python dict assignment `d[k] = v` on the parsed object: replace the
value in place when the key is present, append otherwise. -/
def dictAssign (m : List (String × String)) (k v : String) : List (String × String) :=
  if m.any (fun e => e.1 == k) then
    m.map (fun e => if e.1 == k then (k, v) else e)
  else m ++ [(k, v)]

/-- Python dict membership `k in d.keys()`. -/
def dictMem (m : List (String × String)) (k : String) : Bool :=
  m.any (fun e => e.1 == k)

/-- Python dict `d.pop(k)` restricted to its effect on the mapping. -/
def dictPop (m : List (String × String)) (k : String) : List (String × String) :=
  m.filter (fun e => !(e.1 == k))

/-- Source `create_private_envs_meta`: ensure the conda-meta directory
exists (via `mkdir_p`, which re-raises when the path exists as a
non-directory), read the registry tolerantly, assign the package, and
rewrite the file in full.  Opening the registry path for writing fails with
an OS error when that path is a directory. -/
def create_private_envs_meta (pkg : String) ( root_prefix : String)
    ( private_env_prefix : String) (st : RegState) : Except (CondaErr × RegState) RegState :=
  match (match st.condaMeta with
         | MetaPathState.isDir => some st
         | MetaPathState.absent => some { st with condaMeta := MetaPathState.isDir }
         | MetaPathState.isFile => none) with
  | none => Except.error (CondaErr.osError, st)
  | some st1 =>
    let m := get_json_content st1.privateEnvs
    match st1.privateEnvs with
    | some RegFile.directory => Except.error (CondaErr.osError, st1)
    | _ =>
      Except.ok { st1 with
        privateEnvs := some (RegFile.jsonFile (dictAssign m pkg private_env_prefix)) }

/-- Source `remove_private_envs_meta`: read tolerantly, pop the key when
present, then delete the registry path with `rm_rf` when the mapping became
empty, otherwise rewrite the file in full.  The write branch is only
reached from a state holding a valid non-empty JSON file, so the operation
never raises. -/
def remove_private_envs_meta (pkg : String) (st : RegState) : RegState :=
  let m := get_json_content st.privateEnvs
  let m2 := if dictMem m pkg then dictPop m pkg else m
  if m2 = [] then { st with privateEnvs := none }
  else { st with privateEnvs := some (RegFile.jsonFile m2) }

/-- A written entry-point script: its text and whether the external
`make_executable` permission capability was applied.  Modelled from the
spec: `make_executable` lives in `conda/gateways/disk/permissions.py`
outside the sources and is described as marking the file executable. -/
structure Script where
  content : String
  executable : Bool
deriving DecidableEq, Repr

/-- Source `private_pkg_entry_point_template` applied to a concrete
`source_full_path`: the template text after the `dals` dedent (the helper
`conda/_vendor/auxlib/ish.py` outside the sources dedents and left-strips
the literal), with the single `%(source_full_path)s` directive replaced by
the path text itself — Python `%` formatting inserts the string raw, with
no quoting. -/
def private_pkg_entry_point_template (source_full_path : String) : String :=
  "import os\nimport sys\nif __name__ == \x27__main__\x27:\n    "
    ++ ("os.execv(" ++ source_full_path ++ ", sys.argv)") ++ "\n"

/-- Source `create_private_pkg_entry_point`: write the shebang line then
the rendered template, and mark the result executable. -/
def create_private_pkg_entry_point (target_path python_full_path source_full_path : String) :
    String × Script :=
  let entry_point := private_pkg_entry_point_template source_full_path
  (target_path,
    { content := "#!" ++ python_full_path ++ "\n" ++ entry_point, executable := true })

deriving instance DecidableEq for Except

/-! Helper lemmas. -/

theorem path_exists_eq_false_of_lookupFs_none (fs : Fs) (p : String)
    (h : lookupFs fs p = none) : path_exists fs p = false := by
  unfold path_exists resolveNode
  rw [h]
  rfl

theorem lookupFs_rm_rf_self (fs : Fs) (p : String) : lookupFs (rm_rf fs p) p = none := by
  have hfind : List.find? (fun e => e.1 == p) (rm_rf fs p) = none := by
    rw [List.find?_eq_none]
    intro x hx
    have h2 := (List.mem_filter.mp hx).2
    simp only [Bool.not_eq_true'] at h2
    simp [h2]
  simp [lookupFs, hfind]

theorem os_link_error_of_dst_present (env : SysEnv) (fs : Fs) (src dst : String)
    (h : (lookupFs fs dst).isSome = true) : os_link env fs src dst = Except.error () := by
  unfold os_link
  cases env.link_fails
  · cases hres : resolveNode fs (fs.length + 1) src with
    | none => rfl
    | some node =>
      cases node with
      | file c m => simp [hres, h]
      | dir => simp [hres]
      | symlink t => simp [hres]
  · rfl

theorem dictAssign_ne_nil (m : List (String × String)) (k v : String) :
    dictAssign m k v ≠ [] := by
  unfold dictAssign
  by_cases h : m.any (fun e => e.1 == k)
  · cases m with
    | nil => simp at h
    | cons e rest => simp [h]
  · simp [h]

theorem dictPop_of_not_mem (m : List (String × String)) (k : String)
    (h : dictMem m k = false) : dictPop m k = m := by
  unfold dictPop
  rw [List.filter_eq_self]
  intro x hx
  unfold dictMem at h
  rw [List.any_eq_false] at h
  simpa using h x hx

theorem get_json_content_none : get_json_content none = [] := rfl

theorem get_json_content_jsonFile (m : List (String × String)) :
    get_json_content (some (RegFile.jsonFile m)) = m := rfl

theorem remove_private_envs_meta_eq (pkg : String) (st : RegState) :
    remove_private_envs_meta pkg st
      = if dictPop (get_json_content st.privateEnvs) pkg = [] then
          { st with privateEnvs := none }
        else
          { st with privateEnvs := some (RegFile.jsonFile (dictPop (get_json_content st.privateEnvs) pkg)) } := by
  simp only [remove_private_envs_meta]
  by_cases hmem : dictMem (get_json_content st.privateEnvs) pkg = true
  · simp only [hmem, if_true]
  · rw [Bool.not_eq_true] at hmem
    simp only [hmem, Bool.false_eq_true, if_false, dictPop_of_not_mem _ _ hmem]

/-! Claim theorems. -/

/-- C1: for every `create_link` call with a link type other than
`directory`, when the destination already exists and `force` is false, the
call fails with `ClobberError` carrying the destination, the source and the
link type, and the filesystem state carried out by the error is exactly the
input state — nothing was mutated before the raise. -/
theorem c1_clobber_error_state_unchanged (env : SysEnv) (fs : Fs) (src dst : String)
    (link_type : LinkType) (hlt : link_type ≠ LinkType.directory)
    (hex : path_exists fs dst = true) :
    create_link env fs src dst link_type false
      = Except.error (CondaErr.clobberError dst src link_type, fs) := by
  unfold create_link clobber_check
  rw [if_neg hlt, hex]
  simp

theorem c1_witness :
    create_link ⟨false, true, false⟩ [("dst", FsNode.file "old" 1)] "src" "dst"
        LinkType.hardlink false
      = Except.error
          (CondaErr.clobberError "dst" "src" LinkType.hardlink,
            [("dst", FsNode.file "old" 1)]) :=
  c1_clobber_error_state_unchanged ⟨false, true, false⟩ [("dst", FsNode.file "old" 1)]
    "src" "dst" LinkType.hardlink (by decide) (by decide)

/-- C9: in `create_link`, the clobber check runs before the link-type
dispatch, so with `force` set, an existing destination and a link type
outside the four known members, the destination is recursively deleted
first and only then is the unsupported-link-type `CondaError` raised: the
error carries the state with the destination already removed, and the
destination no longer exists in that state. -/
theorem c9_force_unknown_link_type_deletes_first (env : SysEnv) (fs : Fs) (src dst : String)
    (hex : path_exists fs dst = true) :
    create_link env fs src dst LinkType.other true
        = Except.error (CondaErr.condaError LinkType.other, rm_rf fs dst)
      ∧ path_exists (rm_rf fs dst) dst = false := by
  refine ⟨?_, path_exists_eq_false_of_lookupFs_none _ _ (lookupFs_rm_rf_self fs dst)⟩
  unfold create_link clobber_check link_dispatch
  rw [hex]
  simp

theorem c9_witness :
    create_link ⟨false, true, false⟩ [("dst", FsNode.file "old" 1)] "src" "dst"
        LinkType.other true
      = Except.error (CondaErr.condaError LinkType.other, [])
    ∧ path_exists (rm_rf [("dst", FsNode.file "old" 1)] "dst") "dst" = false :=
  c9_force_unknown_link_type_deletes_first ⟨false, true, false⟩
    [("dst", FsNode.file "old" 1)] "src" "dst" (by decide)

/-- C3 counterexample: with the destination a dangling symbolic link (a
symlink to a missing target), `create_link` with `force=false` does not
raise `ClobberError` — the symlink-following `exists` check treats the
destination as absent and the subsequent OS link call fails — and with
`force=true` the dangling symlink is not deleted either: the OS error
carries the filesystem unchanged, still holding the dangling symlink. -/
theorem c3_counterexample :
    create_link ⟨false, true, false⟩ [("dst", FsNode.symlink "gone")] "src" "dst"
        LinkType.softlink false
      ≠ Except.error
          (CondaErr.clobberError "dst" "src" LinkType.softlink,
            [("dst", FsNode.symlink "gone")])
    ∧ create_link ⟨false, true, false⟩ [("dst", FsNode.symlink "gone")] "src" "dst"
        LinkType.softlink true
      = Except.error (CondaErr.osError, [("dst", FsNode.symlink "gone")]) := by
  constructor
  · decide
  · decide

/-- C3 as amended: the `exists` check of `create_link` follows symbolic
links, so a destination that is a dangling symlink is treated as absent:
for the `softlink` and `hardlink` types and either value of `force`, no
`ClobberError` is raised and no deletion happens; the OS link call then
fails (the directory entry is lexically present) and the OS error leaves
the filesystem unchanged. -/
theorem c3_dangling_symlink_treated_absent (env : SysEnv) (fs : Fs) (src dst t : String)
    (force : Bool) (hwin : env.on_win = false)
    (hlink : lookupFs fs dst = some (FsNode.symlink t))
    (hex : path_exists fs dst = false) :
    create_link env fs src dst LinkType.softlink force
        = Except.error (CondaErr.osError, fs)
    ∧ create_link env fs src dst LinkType.hardlink force
        = Except.error (CondaErr.osError, fs) := by
  have hsome : (lookupFs fs dst).isSome = true := by rw [hlink]; rfl
  constructor
  · simp [create_link, clobber_check, link_dispatch, hex, hwin, os_symlink, hsome]
  · simp [create_link, clobber_check, link_dispatch, hex, hwin,
      os_link_error_of_dst_present env fs src dst hsome]

theorem c3_witness :
    create_link ⟨false, true, false⟩ [("dst", FsNode.symlink "gone")] "src" "dst"
        LinkType.hardlink false
      = Except.error (CondaErr.osError, [("dst", FsNode.symlink "gone")]) :=
  (c3_dangling_symlink_treated_absent ⟨false, true, false⟩
    [("dst", FsNode.symlink "gone")] "src" "dst" "gone" false rfl rfl (by decide)).2

/-- C4: for `create_link` with the `copy` type on a non-Windows platform,
when the source is a symbolic link whose stored target does not start with
a slash, the destination is created as a symbolic link with the identical
target string and no content copy happens; in every other copy case
(Windows, non-symlink source, or absolute target) the operation is exactly
the full content-and-metadata copy `copy2`. -/
theorem c4_copy_preserves_relative_symlink (env : SysEnv) (fs : Fs) (src dst t : String)
    (hdst : lookupFs fs dst = none) :
    (env.on_win = false → lookupFs fs src = some (FsNode.symlink t) →
      strStartsWith t "/" = false →
      create_link env fs src dst LinkType.copy false
        = Except.ok ((dst, FsNode.symlink t) :: fs))
    ∧ ((env.on_win = true ∨ islink fs src = false ∨ strStartsWith (readlink fs src) "/" = true) →
      create_link env fs src dst LinkType.copy false
        = match copy2 fs src dst with
          | Except.ok fs2 => Except.ok fs2
          | Except.error _ => Except.error (CondaErr.osError, fs)) := by
  have hnex : path_exists fs dst = false := path_exists_eq_false_of_lookupFs_none fs dst hdst
  constructor
  · intro hwin hsrc hrel
    simp [create_link, clobber_check, link_dispatch, hnex, hwin, islink, hsrc, readlink,
      hrel, os_symlink, hdst]
  · intro hcase
    rcases hcase with hwin | hlink | hslash
    · simp [create_link, clobber_check, link_dispatch, hnex, hwin]
    · simp [create_link, clobber_check, link_dispatch, hnex, hlink]
    · simp [create_link, clobber_check, link_dispatch, hnex, hslash]

theorem c4_witness :
    create_link ⟨false, true, false⟩ [("src", FsNode.symlink "rel")] "src" "dst"
        LinkType.copy false
      = Except.ok (("dst", FsNode.symlink "rel") :: [("src", FsNode.symlink "rel")]) :=
  (c4_copy_preserves_relative_symlink ⟨false, true, false⟩ [("src", FsNode.symlink "rel")]
    "src" "dst" "rel" rfl).1 rfl rfl (by decide)

/-- C5: `create_hard_link_or_copy` with a symbolic-link source fails
immediately with `CondaOSError`, never falling back to a copy (the error
carries the input state unchanged); with a non-symlink regular-file source
whose hard-link attempt raises an I/O error, the call recovers by a full
copy: it succeeds, the failure is not surfaced, and the destination's
content equals the source's content. -/
theorem c5_hard_link_or_copy_contract (env : SysEnv) (fs : Fs) (src dst : String) :
    (islink fs src = true →
      create_hard_link_or_copy env fs src dst
        = Except.error (CondaErr.condaOSError (cannot_hard_link_message src dst), fs))
    ∧ (∀ c m, env.link_fails = true → islink fs src = false →
        lookupFs fs src = some (FsNode.file c m) → lookupFs fs dst = none →
        create_hard_link_or_copy env fs src dst = Except.ok ((dst, FsNode.file c m) :: fs)
        ∧ readContent ((dst, FsNode.file c m) :: fs) dst = readContent fs src) := by
  constructor
  · intro h
    simp [create_hard_link_or_copy, h]
  · intro c m hlf hnl hsrc hdst
    have hres : resolveNode fs (fs.length + 1) src = some (FsNode.file c m) := by
      unfold resolveNode
      rw [hsrc]
    have hcopy : copy2 fs src dst = Except.ok ((dst, FsNode.file c m) :: fs) := by
      unfold copy2 openWriteTarget setEntry
      rw [hres, hdst]
      simp [hdst]
    constructor
    · cases hw : env.on_win
      · simp [create_hard_link_or_copy, hnl, hw, os_link, hlf, hcopy]
      · simp [create_hard_link_or_copy, hnl, hw, win_hard_link, hlf, hcopy]
    · have h1 : readContent ((dst, FsNode.file c m) :: fs) dst = some c := by
        unfold readContent resolveNode
        simp [lookupFs]
      have h2 : readContent fs src = some c := by
        unfold readContent
        rw [hres]
      rw [h1, h2]

theorem c5_witness :
    create_hard_link_or_copy ⟨false, true, true⟩ [("src", FsNode.file "data" 7)] "src" "dst"
        = Except.ok (("dst", FsNode.file "data" 7) :: [("src", FsNode.file "data" 7)])
    ∧ readContent (("dst", FsNode.file "data" 7) :: [("src", FsNode.file "data" 7)]) "dst"
        = readContent [("src", FsNode.file "data" 7)] "src" :=
  (c5_hard_link_or_copy_contract ⟨false, true, true⟩ [("src", FsNode.file "data" 7)]
    "src" "dst").2 "data" 7 rfl rfl rfl rfl

/-- C6: `extract_tarball` defaults a missing destination directory to the
archive path with its final 8 characters stripped, and when the
destination already exists it fails with the assertion error before any
filesystem mutation — for every archive argument, including one that could
not even be opened, showing the archive is not touched first. -/
theorem c6_extract_default_dest_and_precondition (fs : Fs) (platform : String)
    (uid gid : Nat) (tarball_full_path : String) (archive : Option (List TarEntry)) :
    (extract_tarball fs platform uid gid tarball_full_path none archive
      = extract_tarball fs platform uid gid tarball_full_path
          (some (tarball_full_path.dropRight 8)) archive)
    ∧ (∀ d, path_exists fs d = true →
        ∀ archive2, extract_tarball fs platform uid gid tarball_full_path (some d) archive2
          = Except.error (ExtractErr.assertionError d)) := by
  constructor
  · rfl
  · intro d hd archive2
    unfold extract_tarball
    simp [hd]

theorem c6_witness :
    extract_tarball [("pkg", FsNode.dir)] "linux2" 0 0 "pkg.tar.bz2" (some "pkg") none
      = Except.error (ExtractErr.assertionError "pkg") :=
  (c6_extract_default_dest_and_precondition [("pkg", FsNode.dir)] "linux2" 0 0
    "pkg.tar.bz2" none).2 "pkg" (by decide) none

/-- C2 counterexample: running as uid 0 on `darwin` — a POSIX system — the
ownership rewrite does not run at all, because the code tests
`sys.platform.startswith('linux')`, so a regular file keeps owner
1000/1000; and on a linux platform the rewrite does not leave symbolic
links untouched: a symlink to a non-directory has its link ownership
rewritten to 0/0. -/
theorem c2_counterexample :
    extract_tarball [] "darwin" 0 0 "p.tar.bz2" (some "d")
        (some [⟨"f", TarKind.regular, 1000, 1000⟩])
      = Except.ok ("d", [⟨"f", TarKind.regular, 1000, 1000⟩])
    ∧ extract_tarball [] "linux2" 0 0 "p.tar.bz2" (some "d")
        (some [⟨"s", TarKind.symlinkTo false, 5, 5⟩])
      = Except.ok ("d", [⟨"s", TarKind.symlinkTo false, 0, 0⟩]) :=
  ⟨rfl, rfl⟩

/-- C2 as amended: the ownership rewrite runs exactly when the platform
string starts with `linux` (not on every POSIX system) and the effective
uid is 0; when it runs, every regular file under the destination ends with
owner and group 0 regardless of the archive's recorded ownership,
directories and symlinks classified as directories are left untouched, and
symbolic links to non-directories also get their link ownership rewritten
to 0/0. -/
theorem c2_root_extraction_ownership (fs : Fs) (platform : String) (gid : Nat)
    (tarball_full_path d : String) (entries : List TarEntry)
    (hlin : strStartsWith platform "linux" = true)
    (hex : path_exists fs d = false) :
    extract_tarball fs platform 0 gid tarball_full_path (some d) (some entries)
      = Except.ok (d, walk_files_lchown_root entries)
    ∧ ∀ i : Nat, ∀ e : TarEntry, entries[i]? = some e →
        (e.kind = TarKind.regular →
          (walk_files_lchown_root entries)[i]? = some { e with owner := 0, group := 0 })
        ∧ (e.kind = TarKind.symlinkTo false →
          (walk_files_lchown_root entries)[i]? = some { e with owner := 0, group := 0 })
        ∧ (e.kind = TarKind.directory →
          (walk_files_lchown_root entries)[i]? = some e)
        ∧ (e.kind = TarKind.symlinkTo true →
          (walk_files_lchown_root entries)[i]? = some e) := by
  constructor
  · unfold extract_tarball
    simp [hex, hlin]
  · intro i e he
    have hmap : (walk_files_lchown_root entries)[i]?
        = (entries[i]?).map (fun e =>
            match e.kind with
            | TarKind.directory => e
            | TarKind.symlinkTo true => e
            | _ => { e with owner := 0, group := 0 }) := by
      unfold walk_files_lchown_root
      exact List.getElem?_map _ entries i
    rw [hmap, he]
    refine ⟨?_, ?_, ?_, ?_⟩ <;> intro hk <;> simp [hk]

theorem c2_witness :
    extract_tarball [] "linux2" 0 0 "p.tar.bz2" (some "d")
        (some [⟨"f", TarKind.regular, 5, 6⟩])
      = Except.ok ("d", walk_files_lchown_root [⟨"f", TarKind.regular, 5, 6⟩]) :=
  (c2_root_extraction_ownership [] "linux2" 0 "p.tar.bz2" "d"
    [⟨"f", TarKind.regular, 5, 6⟩] (by decide) (by decide)).1

/-- C7 counterexample: when the registry path is a directory (not a
regular file) the read does yield an empty mapping, but an upsert does not
proceed as it would against an empty registry: opening the path for
writing fails with an OS error, while the same upsert against a missing
registry file succeeds. -/
theorem c7_counterexample :
    get_json_content (some RegFile.directory) = []
    ∧ create_private_envs_meta "a" "r" "p" ⟨some RegFile.directory, MetaPathState.isDir⟩
        = Except.error (CondaErr.osError, ⟨some RegFile.directory, MetaPathState.isDir⟩)
    ∧ create_private_envs_meta "a" "r" "p" ⟨none, MetaPathState.isDir⟩
        = Except.ok ⟨some (RegFile.jsonFile [("a", "p")]), MetaPathState.isDir⟩ :=
  ⟨rfl, rfl, rfl⟩

/-- C7 as amended: a missing registry file, a registry path that is not a
regular file, and a file holding invalid JSON are all read by
`get_json_content` as the empty mapping with no error surfaced; `remove`
then behaves exactly as against an absent registry in all three cases, and
`upsert` does so for the missing-file and invalid-JSON cases — but when
the path is a directory, the upsert fails at the write step instead of
proceeding. -/
theorem c7_registry_read_tolerance :
    (get_json_content none = [] ∧ get_json_content (some RegFile.invalidFile) = []
      ∧ get_json_content (some RegFile.directory) = [])
    ∧ (∀ pkg rp pe cm, cm ≠ MetaPathState.isFile →
        create_private_envs_meta pkg rp pe ⟨some RegFile.invalidFile, cm⟩
          = create_private_envs_meta pkg rp pe ⟨none, cm⟩)
    ∧ (∀ pkg rp pe cm st2,
        create_private_envs_meta pkg rp pe ⟨some RegFile.directory, cm⟩ ≠ Except.ok st2)
    ∧ (∀ pkg cm,
        remove_private_envs_meta pkg ⟨some RegFile.invalidFile, cm⟩
            = remove_private_envs_meta pkg ⟨none, cm⟩
        ∧ remove_private_envs_meta pkg ⟨some RegFile.directory, cm⟩
            = remove_private_envs_meta pkg ⟨none, cm⟩) := by
  refine ⟨⟨rfl, rfl, rfl⟩, ?_, ?_, ?_⟩
  · intro pkg rp pe cm hcm
    cases cm with
    | absent => rfl
    | isDir => rfl
    | isFile => exact absurd rfl hcm
  · intro pkg rp pe cm st2
    cases cm <;> simp [create_private_envs_meta]
  · intro pkg cm
    exact ⟨rfl, rfl⟩

theorem c7_witness :
    create_private_envs_meta "a" "r" "p" ⟨some RegFile.invalidFile, MetaPathState.isDir⟩
      = create_private_envs_meta "a" "r" "p" ⟨none, MetaPathState.isDir⟩ :=
  c7_registry_read_tolerance.2.1 "a" "r" "p" MetaPathState.isDir (by decide)

/-- C8: the registry operations preserve the on-disk invariant: a
successful upsert leaves the registry file holding exactly the JSON object
of the updated mapping, which is never empty; a remove leaves either no
file at all (when the resulting mapping is empty — the file is deleted,
not written as an empty object) or the file holding exactly the JSON
object of the resulting mapping; and removing a key that is not present is
a no-op on the mapping, not an error (`remove` is total). -/
theorem c8_registry_invariant :
    (∀ pkg rp pe st st2, create_private_envs_meta pkg rp pe st = Except.ok st2 →
      st2.privateEnvs
          = some (RegFile.jsonFile (dictAssign (get_json_content st.privateEnvs) pkg pe))
        ∧ dictAssign (get_json_content st.privateEnvs) pkg pe ≠ [])
    ∧ (∀ pkg st,
        (dictPop (get_json_content st.privateEnvs) pkg = [] →
          (remove_private_envs_meta pkg st).privateEnvs = none)
        ∧ (dictPop (get_json_content st.privateEnvs) pkg ≠ [] →
          (remove_private_envs_meta pkg st).privateEnvs
            = some (RegFile.jsonFile (dictPop (get_json_content st.privateEnvs) pkg))))
    ∧ (∀ pkg st, dictMem (get_json_content st.privateEnvs) pkg = false →
        get_json_content (remove_private_envs_meta pkg st).privateEnvs
          = get_json_content st.privateEnvs) := by
  refine ⟨?_, ?_, ?_⟩
  · intro pkg rp pe st st2 h
    obtain ⟨pe0, cm⟩ := st
    refine ⟨?_, dictAssign_ne_nil _ _ _⟩
    cases cm with
    | isFile => simp [create_private_envs_meta] at h
    | isDir =>
      rcases pe0 with _ | f
      · simp [create_private_envs_meta] at h
        subst h
        simp [get_json_content]
      · cases f with
        | jsonFile m =>
          simp [create_private_envs_meta] at h
          subst h
          simp [get_json_content]
        | invalidFile =>
          simp [create_private_envs_meta] at h
          subst h
          simp [get_json_content]
        | directory => simp [create_private_envs_meta] at h
    | absent =>
      rcases pe0 with _ | f
      · simp [create_private_envs_meta] at h
        subst h
        simp [get_json_content]
      · cases f with
        | jsonFile m =>
          simp [create_private_envs_meta] at h
          subst h
          simp [get_json_content]
        | invalidFile =>
          simp [create_private_envs_meta] at h
          subst h
          simp [get_json_content]
        | directory => simp [create_private_envs_meta] at h
  · intro pkg st
    constructor
    · intro hnil
      rw [remove_private_envs_meta_eq, if_pos hnil]
    · intro hnil
      rw [remove_private_envs_meta_eq, if_neg hnil]
  · intro pkg st hmem
    rw [remove_private_envs_meta_eq, dictPop_of_not_mem _ _ hmem]
    by_cases hnil : get_json_content st.privateEnvs = []
    · rw [if_pos hnil, hnil]
      rfl
    · rw [if_neg hnil]
      rfl

theorem c8_witness :
    (⟨some (RegFile.jsonFile [("a", "p")]), MetaPathState.isDir⟩ : RegState).privateEnvs
      = some (RegFile.jsonFile
          (dictAssign (get_json_content (none : Option RegFile)) "a" "p")) :=
  (c8_registry_invariant.1 "a" "r" "p" ⟨none, MetaPathState.absent⟩
    ⟨some (RegFile.jsonFile [("a", "p")]), MetaPathState.isDir⟩ rfl).1

/-- C10: `create_private_pkg_entry_point` writes the shebang line followed
by the rendered private-package template and marks the script executable,
and the template substitutes the target executable path into
`os.execv(%(source_full_path)s, sys.argv)` as raw text: the body contains
`os.execv(` followed by the path characters themselves, not a quoted
Python string literal of the path. -/
theorem c10_private_entry_point_raw_substitution
    (target_path python_full_path source_full_path : String) :
    (create_private_pkg_entry_point target_path python_full_path source_full_path).1
        = target_path
    ∧ (create_private_pkg_entry_point target_path python_full_path source_full_path).2.content
        = "#!" ++ python_full_path ++ "\n"
            ++ private_pkg_entry_point_template source_full_path
    ∧ (create_private_pkg_entry_point target_path python_full_path source_full_path).2.executable
        = true
    ∧ ∃ pre post, private_pkg_entry_point_template source_full_path
        = pre ++ ("os.execv(" ++ source_full_path ++ ", sys.argv)") ++ post :=
  ⟨rfl, rfl, rfl,
    ⟨"import os\nimport sys\nif __name__ == \x27__main__\x27:\n    ", "\n", rfl⟩⟩
